import Mathlib

/-!
Verification of the API-Status-Monitor repository (src/app) against its
natural-language specification. Shallow embedding: the Python functions of
app/config.py, app/monitor.py, app/db.py and app/httpd.py are translated to
executable Lean definitions, and the spec's claims are settled as theorems
about those definitions.
-/

namespace StatusMonitor

/-! ## Embedding of app/config.py -/

/-- Embeds the frozen dataclass EndpointConfig of app/config.py. Optional
fields use Option; a Python value of None is none. Headers are a list of
key-value pairs standing for the Python dict. -/
structure EndpointConfig where
  name : String
  url : String
  method : String
  interval_seconds : Int
  timeout_seconds : Int
  headers : Option (List (String × String))
  expected_statuses : Option (List Int)
deriving DecidableEq

/-! ## Embedding of app/monitor.py -/

/-- Python truthiness of an optional list, as tested by the line
`if expected_statuses:` in monitor.py: false for None and for the empty
list, true otherwise. -/
def listTruthy (l : Option (List Int)) : Bool :=
  match l with
  | none => false
  | some es => !es.isEmpty

/-- Embeds _is_ok_status of app/monitor.py (lines 20-23): when the optional
list of expected statuses is truthy, membership decides health; otherwise
the default range check 200 <= status < 400 applies. -/
def is_ok_status (status : Int) (expected_statuses : Option (List Int)) : Bool :=
  if listTruthy expected_statuses then (expected_statuses.getD []).contains status
  else decide (200 ≤ status ∧ status < 400)

/-- Abstracts what the urllib transport does for one request in run_check:
a normal response carrying a status, an urllib.error.HTTPError carrying an
optional numeric code attribute and a message, or any other exception with
its type name and message. -/
inductive TransportResult where
  | success (status : Int)
  | httpError (code : Option Int) (msg : String)
  | failure (excName : String) (excMsg : String)
deriving DecidableEq

/-- The 4-tuple returned by run_check of app/monitor.py:
(ok, status_code or None, latency_ms, error or None). -/
structure RunCheckResult where
  ok : Bool
  status_code : Option Int
  latency_ms : Option Int
  error : Option String
deriving DecidableEq

/-- Embeds run_check of app/monitor.py (lines 26-49). The network call is
abstracted by a TransportResult, and the elapsed wall-clock time measured
by the two time.monotonic() readings is abstracted by elapsed_ms, computed
the same way on every path. On the success path the status flows through
_is_ok_status; on the HTTPError path (lines 42-46) the code sets ok = False
and recovers the status from the exception attribute, where
`int(getattr(e, "code", 0) or 0) or None` maps an absent or zero code to
None; on any other exception (lines 47-49) it returns status None, ok
False and the error string `f"TypeName: message"`. -/
def run_check (endpoint : EndpointConfig) (transport : TransportResult)
    (elapsed_ms : Int) : RunCheckResult :=
  match transport with
  | .success status =>
      { ok := is_ok_status status endpoint.expected_statuses
        status_code := some status
        latency_ms := some elapsed_ms
        error := none }
  | .httpError code msg =>
      let status : Option Int :=
        match code with
        | none => none
        | some c => if c = 0 then none else some c
      { ok := false
        status_code := status
        latency_ms := some elapsed_ms
        error := some msg }
  | .failure excName excMsg =>
      { ok := false
        status_code := none
        latency_ms := some elapsed_ms
        error := some (excName ++ ": " ++ excMsg) }

/-! ## Embedding of app/db.py

The sqlite database is embedded as in-memory lists of rows. AUTOINCREMENT
primary keys are modelled by a next-id counter per table, starting at 1 as
sqlite does; INSERT appends a row carrying the current counter. The SQL
`ORDER BY checked_at DESC, id DESC` of get_last_check and get_history is
embedded as sorting by the corresponding total preorder. -/

/-- One row of the endpoints table of SCHEMA_SQL in app/db.py. -/
structure EndpointRow where
  id : Nat
  name : String
  url : String
  method : String
  interval_seconds : Int
  timeout_seconds : Int
  headers_json : Option String
  expected_statuses_json : Option String
  created_at : Int
deriving DecidableEq

/-- One row of the checks table of SCHEMA_SQL in app/db.py. The ok column
stores 1 or 0 in sqlite; here it is the corresponding Bool. -/
structure DBCheckRow where
  id : Nat
  endpoint_id : Nat
  checked_at : Int
  ok : Bool
  status_code : Option Int
  latency_ms : Option Int
  error : Option String
deriving DecidableEq

/-- The frozen dataclass CheckRow of app/db.py: the projection of a checks
row that get_last_check and get_history hand back to callers (without the
id and endpoint_id columns). -/
structure CheckRow where
  checked_at : Int
  ok : Bool
  status_code : Option Int
  latency_ms : Option Int
  error : Option String
deriving DecidableEq

/-- Projects a stored checks row to the CheckRow dataclass, as the row
construction in get_last_check and get_history does. -/
def DBCheckRow.toCheckRow (r : DBCheckRow) : CheckRow :=
  { checked_at := r.checked_at
    ok := r.ok
    status_code := r.status_code
    latency_ms := r.latency_ms
    error := r.error }

/-- The two tables of the sqlite database plus their AUTOINCREMENT
counters. -/
structure DB where
  endpoints : List EndpointRow
  next_endpoint_id : Nat
  checks : List DBCheckRow
  next_check_id : Nat
deriving DecidableEq

/-- A freshly created database: both tables empty, AUTOINCREMENT counters
at 1, as sqlite assigns ids starting from 1. -/
def emptyDB : DB :=
  { endpoints := [], next_endpoint_id := 1, checks := [], next_check_id := 1 }

/-- The DO UPDATE SET clause of upsert_endpoint applied to one row: on the
conflicting name it overwrites every column except id, name and
created_at, and leaves any other row alone. -/
def updateEndpointRow (name url method : String)
    (interval_seconds timeout_seconds : Int)
    (headers_json expected_statuses_json : Option String)
    (r : EndpointRow) : EndpointRow :=
  if r.name == name then
    { r with
      url := url
      method := method
      interval_seconds := interval_seconds
      timeout_seconds := timeout_seconds
      headers_json := headers_json
      expected_statuses_json := expected_statuses_json }
  else r

/-- Embeds upsert_endpoint of app/db.py (lines 48-76): INSERT with
ON CONFLICT(name) DO UPDATE SET updates every column except id, name and
created_at when a row with the same name exists, and inserts a fresh row
with a new AUTOINCREMENT id otherwise; the following SELECT returns the id
of the (unique) row carrying the name. -/
def upsert_endpoint (db : DB) (name url method : String)
    (interval_seconds timeout_seconds : Int)
    (headers_json expected_statuses_json : Option String) (now : Int) :
    DB × Nat :=
  match db.endpoints.find? (fun r => r.name == name) with
  | some existing =>
      ({ db with
          endpoints := db.endpoints.map (updateEndpointRow name url method
            interval_seconds timeout_seconds headers_json
            expected_statuses_json) },
        existing.id)
  | none =>
      let row : EndpointRow :=
        { id := db.next_endpoint_id
          name := name
          url := url
          method := method
          interval_seconds := interval_seconds
          timeout_seconds := timeout_seconds
          headers_json := headers_json
          expected_statuses_json := expected_statuses_json
          created_at := now }
      ({ db with
          endpoints := db.endpoints ++ [row]
          next_endpoint_id := db.next_endpoint_id + 1 },
        row.id)

/-- Embeds insert_check of app/db.py (lines 88-104): appends one immutable
row to the checks table under a fresh AUTOINCREMENT id. -/
def insert_check (db : DB) (endpoint_id : Nat) (checked_at : Int) (ok : Bool)
    (status_code latency_ms : Option Int) (error : Option String) : DB :=
  { db with
    checks := db.checks ++
      [{ id := db.next_check_id
         endpoint_id := endpoint_id
         checked_at := checked_at
         ok := ok
         status_code := status_code
         latency_ms := latency_ms
         error := error }]
    next_check_id := db.next_check_id + 1 }

/-- The total preorder behind `ORDER BY checked_at DESC, id DESC`: row a
sorts no later than row b when a has the larger checked_at, or equal
checked_at and the larger (or equal) id. -/
def rowBefore (a b : DBCheckRow) : Prop :=
  b.checked_at < a.checked_at ∨ (a.checked_at = b.checked_at ∧ b.id ≤ a.id)

instance : DecidableRel rowBefore := fun a b => by
  unfold rowBefore; exact inferInstance

instance rowBefore_refl : IsRefl DBCheckRow rowBefore :=
  ⟨fun a => Or.inr ⟨rfl, le_refl _⟩⟩

instance rowBefore_trans : IsTrans DBCheckRow rowBefore := by
  constructor
  intro a b c hab hbc
  rcases hab with h1 | ⟨h1, h1id⟩ <;> rcases hbc with h2 | ⟨h2, h2id⟩
  · exact Or.inl (h2.trans h1)
  · exact Or.inl (h2 ▸ h1)
  · exact Or.inl (h1 ▸ h2)
  · exact Or.inr ⟨h1.trans h2, h2id.trans h1id⟩

instance rowBefore_total : IsTotal DBCheckRow rowBefore := by
  constructor
  intro a b
  rcases lt_trichotomy a.checked_at b.checked_at with h | h | h
  · exact Or.inr (Or.inl h)
  · rcases Nat.le_total b.id a.id with hid | hid
    · exact Or.inl (Or.inr ⟨h, hid⟩)
    · exact Or.inr (Or.inr ⟨h.symm, hid⟩)
  · exact Or.inl (Or.inl h)

/-- The `WHERE endpoint_id = ?` clause shared by get_last_check, get_uptime
and get_history. -/
def filterChecks (db : DB) (endpoint_id : Nat) : List DBCheckRow :=
  db.checks.filter (fun r => r.endpoint_id == endpoint_id)

/-- The rows of one endpoint in the order `ORDER BY checked_at DESC,
id DESC` produces. -/
def orderedChecks (db : DB) (endpoint_id : Nat) : List DBCheckRow :=
  List.insertionSort rowBefore (filterChecks db endpoint_id)

/-- Embeds get_last_check of app/db.py (lines 107-126): the first row of
the endpoint in descending (checked_at, id) order, projected to CheckRow,
or None when the endpoint has no rows. -/
def get_last_check (db : DB) (endpoint_id : Nat) : Option CheckRow :=
  (orderedChecks db endpoint_id).head?.map DBCheckRow.toCheckRow

/-- Embeds get_uptime of app/db.py (lines 129-142): SUM(ok) and COUNT(*)
over the endpoint's rows, restricted to checked_at >= since_ts when since
is given; SUM over no rows is NULL, which `int(row[0] or 0)` turns into 0,
matching countP on the empty list. -/
def get_uptime (db : DB) (endpoint_id : Nat) (since_ts : Option Int) :
    Nat × Nat :=
  let rows := (filterChecks db endpoint_id).filter (fun r =>
    match since_ts with
    | none => true
    | some s => decide (s ≤ r.checked_at))
  (rows.countP (fun r => r.ok), rows.length)

/-- Embeds get_history of app/db.py (lines 145-165): the first `limit`
rows of the endpoint in descending (checked_at, id) order, projected to
CheckRow. -/
def get_history (db : DB) (endpoint_id : Nat) (limit : Nat) :
    List CheckRow :=
  ((orderedChecks db endpoint_id).take limit).map DBCheckRow.toCheckRow

/-- Well-formedness maintained by insert_check: every stored check id was
drawn from the AUTOINCREMENT counter, hence is below its current value. -/
def DB.ChecksWF (db : DB) : Prop :=
  ∀ r ∈ db.checks, r.id < db.next_check_id

/-! ## Embedding of Monitor.check_now (app/monitor.py) -/

/-- Embeds Monitor.check_now of app/monitor.py (lines 94-99). The Python
looks the name up in the configured endpoint list; when absent it returns
False having touched nothing, and when present it starts one daemon thread
running _check_and_store for that endpoint and returns True immediately
without joining it. The embedding returns the Python return value together
with the list of probe-and-store tasks dispatched to background threads:
empty when the name is unknown (so no Store write can result), and exactly
the first matching endpoint otherwise. check_now itself never writes to
the Store; any write happens later inside the dispatched task. -/
def check_now (endpoints : List EndpointConfig) (name : String) :
    Bool × List EndpointConfig :=
  match endpoints.find? (fun e => e.name == name) with
  | none => (false, [])
  | some ep => (true, [ep])

/-! ## Embedding of app/httpd.py -/

/-- Embeds the local function pct of Handler._handle_status in app/httpd.py
(lines 125-128): None when total = 0, otherwise the percentage. The Python
rounds the float to two decimals; here the exact rational is returned,
since the claims concern only presence or absence of the value. -/
def pct (up total : Nat) : Option ℚ :=
  if total = 0 then none else some ((up : ℚ) / (total : ℚ) * 100)

/-- Models Python str.strip() with no argument: removes leading and
trailing whitespace characters, working on the underlying character
list. -/
def pyStrip (s : String) : String :=
  String.mk
    (((s.data.dropWhile Char.isWhitespace).reverse.dropWhile
      Char.isWhitespace).reverse)

/-- Models the Python built-in int(str) as applied to the limit query
parameter in Handler._handle_history: optional surrounding whitespace, an
optional single sign, then a nonempty run of decimal digits; any other
shape raises ValueError, modelled as none. (Python additionally accepts
underscore digit separators between digits; that corner is not modelled.) -/
def pyInt (s : String) : Option Int :=
  let digits : List Char → Option Nat := fun cs =>
    if cs.isEmpty then none
    else cs.foldlM (fun acc c =>
      if c.isDigit then some (acc * 10 + (c.toNat - 48)) else none) 0
  match (pyStrip s).toList with
  | '+' :: rest => (digits rest).map (fun n => (n : Int))
  | '-' :: rest => (digits rest).map (fun n => -(n : Int))
  | cs => (digits cs).map (fun n => (n : Int))

/-- The three responses Handler._handle_history can send: 400 with an
error body, 404 with an error body, or 200 with the name and history. -/
inductive HistoryResponse where
  | badRequest (error : String)
  | notFound (error : String)
  | okResponse (name : String) (history : List CheckRow)
deriving DecidableEq

/-- The name-to-id mapping the server carries (endpoint_ids), embedded as
an association list; .get of the Python dict is find? on the first
component. -/
def lookupId (endpoint_ids : List (String × Nat)) (name : String) :
    Option Nat :=
  (endpoint_ids.find? (fun p => p.1 == name)).map (fun p => p.2)

/-- The tail of Handler._handle_history once the limit is settled: look the
stripped name up in endpoint_ids, answer 404 when unknown, otherwise 200
with the endpoint's history. -/
def historyFor (db : DB) (endpoint_ids : List (String × Nat)) (n : String)
    (limit : Nat) : HistoryResponse :=
  match lookupId endpoint_ids (pyStrip n) with
  | none => HistoryResponse.notFound "Unknown endpoint"
  | some endpoint_id =>
      HistoryResponse.okResponse (pyStrip n) (get_history db endpoint_id limit)

/-- Embeds Handler._handle_history of app/httpd.py (lines 151-190). The
query string is abstracted to the extracted first values of the name and
limit parameters, None when absent just as parse_qs yields. A missing or
blank name gives 400; a present non-blank limit string that int() rejects
gives 400; otherwise the limit defaults to 200, and a parsed value v is
clamped by max(1, min(2000, v)); an unknown stripped name gives 404; else
200 with the history, newest first. Python strip() is pyStrip. -/
def handle_history (db : DB) (endpoint_ids : List (String × Nat))
    (name limit_raw : Option String) : HistoryResponse :=
  match name with
  | none => HistoryResponse.badRequest "Missing \x27name\x27 query param"
  | some n =>
    if pyStrip n = "" then
      HistoryResponse.badRequest "Missing \x27name\x27 query param"
    else
      let parsed : Option (Option Int) :=
        match limit_raw with
        | some lr => if pyStrip lr ≠ "" then some (pyInt lr) else none
        | none => none
      match parsed with
      | some none => HistoryResponse.badRequest "Invalid \x27limit\x27"
      | some (some v) =>
          historyFor db endpoint_ids n (Int.toNat (max 1 (min 2000 v)))
      | none => historyFor db endpoint_ids n 200

/-! ## Concrete fixtures used by witnesses -/

/-- A fixture endpoint row for concrete witnesses. -/
def sampleRow : EndpointRow :=
  { id := 1, name := "svc", url := "http://old.example", method := "GET",
    interval_seconds := 30, timeout_seconds := 10, headers_json := none,
    expected_statuses_json := none, created_at := 50 }

/-- A fixture store holding exactly sampleRow and no checks. -/
def sampleDB : DB :=
  { endpoints := [sampleRow], next_endpoint_id := 2, checks := [],
    next_check_id := 1 }

/-! ## Claims C2 and C10: the acceptance rule -/

/-- Claim C2: on the non-error response path, when the config carries an
explicit (nonempty, per Python truthiness; the empty list is claim C10)
list of accepted status codes, ok is exactly membership of the status in
that list; without such a list, ok is exactly 200 <= status < 400. With
expected_statuses = [201, 202] a 201 is ok; with no expected_statuses a
201 is ok and a 404 is not. -/
theorem C2_acceptance_rule (status : Int) (l : List Int) (hl : l ≠ []) :
    is_ok_status status (some l) = l.contains status ∧
    is_ok_status status none = decide (200 ≤ status ∧ status < 400) ∧
    is_ok_status 201 (some [201, 202]) = true ∧
    is_ok_status 201 none = true ∧
    is_ok_status 404 none = false := by
  refine ⟨?_, by rfl, by decide, by decide, by decide⟩
  have : listTruthy (some l) = true := by
    simp [listTruthy, List.isEmpty_iff, hl]
  simp [is_ok_status, this]

/-- Witness for C2 at status 201 and the list [201, 202]. -/
theorem C2_acceptance_rule_witness :
    is_ok_status 201 (some [201, 202]) = [201, 202].contains 201 ∧
    is_ok_status 201 none = decide (200 ≤ (201 : Int) ∧ (201 : Int) < 400) ∧
    is_ok_status 201 (some [201, 202]) = true ∧
    is_ok_status 201 none = true ∧
    is_ok_status 404 none = false :=
  C2_acceptance_rule 201 [201, 202] (by decide)

/-- Claim C10: an empty expected-statuses list (as opposed to None) is
falsy in Python, so classification falls back to the default range
200 <= status < 400 instead of membership in the empty set: a 204 is
classified ok even though the empty list contains no status at all. -/
theorem C10_empty_expected_statuses (status : Int) :
    is_ok_status status (some []) = is_ok_status status none ∧
    is_ok_status status (some []) = decide (200 ≤ status ∧ status < 400) ∧
    is_ok_status 204 (some []) = true ∧
    (List.contains ([] : List Int) 204) = false := by
  refine ⟨by rfl, by rfl, by decide, by decide⟩

/-! ## Helper lemmas about the ordered check listing -/

/-- The ordered listing is a permutation of the endpoint's rows. -/
theorem orderedChecks_perm (db : DB) (endpoint_id : Nat) :
    List.Perm (orderedChecks db endpoint_id) (filterChecks db endpoint_id) :=
  List.perm_insertionSort _ _

/-- The ordered listing is sorted by the ORDER BY preorder. -/
theorem orderedChecks_sorted (db : DB) (endpoint_id : Nat) :
    List.Sorted rowBefore (orderedChecks db endpoint_id) :=
  List.sorted_insertionSort _ _

/-- Taking a positive prefix keeps the first element. -/
theorem head_take {α : Type} (l : List α) (n : Nat) (h : 0 < n) :
    (l.take n).head? = l.head? := by
  cases l with
  | nil => simp
  | cons a t =>
    cases n with
    | zero => omega
    | succ k => simp

/-- The history of an endpoint has min limit count rows. -/
theorem get_history_length (db : DB) (endpoint_id limit : Nat) :
    (get_history db endpoint_id limit).length =
      min limit (filterChecks db endpoint_id).length := by
  rw [get_history, List.length_map, List.length_take,
    (orderedChecks_perm db endpoint_id).length_eq]

/-- The history of an endpoint is newest first: checked_at never increases
along the returned list. -/
theorem get_history_sorted (db : DB) (endpoint_id limit : Nat) :
    List.Sorted (fun a b => b.checked_at ≤ a.checked_at)
      (get_history db endpoint_id limit) := by
  have h1 : List.Sorted rowBefore ((orderedChecks db endpoint_id).take limit) :=
    (orderedChecks_sorted db endpoint_id).sublist (List.take_sublist _ _)
  rw [get_history, List.Sorted, List.pairwise_map]
  refine h1.imp ?_
  intro a b hab
  rcases hab with h | ⟨h, _⟩
  · exact le_of_lt h
  · exact le_of_eq h.symm

/-- For a positive limit, the first history row is the last check. -/
theorem get_history_head (db : DB) (endpoint_id limit : Nat) (h : 0 < limit) :
    (get_history db endpoint_id limit).head? = get_last_check db endpoint_id := by
  rw [get_history, get_last_check, List.head?_map, head_take _ _ h]

/-- When the limit covers every row, the history is all of the endpoint's
rows (up to the ordering). -/
theorem get_history_full (db : DB) (endpoint_id limit : Nat)
    (h : (filterChecks db endpoint_id).length ≤ limit) :
    (get_history db endpoint_id limit).Perm
      ((filterChecks db endpoint_id).map DBCheckRow.toCheckRow) := by
  rw [get_history, List.take_of_length_le]
  · exact (orderedChecks_perm db endpoint_id).map _
  · rw [(orderedChecks_perm db endpoint_id).length_eq]
    exact h

/-- Sorting a list extended by a row that sorts before every other row and
carries a strictly larger id puts that row first. -/
theorem sorted_append_head (l : List DBCheckRow) (n : DBCheckRow)
    (hdom : ∀ r ∈ l, rowBefore n r) (hstrict : ∀ r ∈ l, r.id < n.id) :
    (List.insertionSort rowBefore (l ++ [n])).head? = some n := by
  have hperm : List.Perm (List.insertionSort rowBefore (l ++ [n])) (l ++ [n]) :=
    List.perm_insertionSort _ _
  have hsorted : List.Sorted rowBefore (List.insertionSort rowBefore (l ++ [n])) :=
    List.sorted_insertionSort _ _
  have hmem : n ∈ List.insertionSort rowBefore (l ++ [n]) :=
    hperm.mem_iff.mpr (by simp)
  cases hL : List.insertionSort rowBefore (l ++ [n]) with
  | nil =>
    rw [hL] at hmem
    simp at hmem
  | cons h t =>
    rw [hL] at hmem hsorted hperm
    have hhd : h ∈ l ++ [n] := hperm.mem_iff.mp (List.mem_cons_self _ _)
    simp only [List.head?_cons, Option.some.injEq]
    rcases List.mem_append.mp hhd with hold | hnew
    · exfalso
      have hne : h ≠ n := by
        intro he
        have hx := hstrict h hold
        rw [he] at hx
        exact lt_irrefl _ hx
      have h1 : rowBefore h n := by
        rcases List.mem_cons.mp hmem with he | hm
        · exact absurd he.symm hne
        · exact List.rel_of_sorted_cons hsorted n hm
      have h2 : rowBefore n h := hdom h hold
      have h3 : h.id < n.id := hstrict h hold
      rcases h1 with hc1 | ⟨hc1, hi1⟩ <;> rcases h2 with hc2 | ⟨hc2, hi2⟩ <;> omega
    · simpa using hnew

/-! ## Claim C1: the HTTPError path short-circuits the acceptance rule -/

/-- Claim C1 fails on the code: run_check (app/monitor.py lines 42-46)
hard-codes ok = False on the urllib HTTPError path instead of sending the
recovered status through _is_ok_status. For an endpoint accepting exactly
status 404, a 404 delivered as an HTTPError is stored with ok = false and
status_code = 404, although the acceptance rule classifies 404 as ok. The
spec (sections 4.2 and 9) requires the acceptance rule on this path. -/
theorem C1_http_error_hardcodes_not_ok :
    run_check
      { name := "svc", url := "http://svc.example/health", method := "GET",
        interval_seconds := 30, timeout_seconds := 10, headers := none,
        expected_statuses := some [404] }
      (TransportResult.httpError (some 404) "HTTP Error 404: Not Found") 7 =
      { ok := false, status_code := some 404, latency_ms := some 7,
        error := some "HTTP Error 404: Not Found" } ∧
    is_ok_status 404 (some [404]) = true := by
  exact ⟨rfl, by decide⟩

/-! ## Claim C3: run_check is total and classifies failures -/

/-- Claim C3: every path of run_check returns a fully populated outcome
with latency_ms always set to the measured elapsed time, and on a failure
before a status code exists the outcome has no status_code, ok = false and
an error string combining the exception type name and message. -/
theorem C3_run_check_never_throws (endpoint : EndpointConfig)
    (t : TransportResult) (elapsed_ms : Int) :
    (run_check endpoint t elapsed_ms).latency_ms = some elapsed_ms ∧
    (∃ okv status_code error, run_check endpoint t elapsed_ms =
      { ok := okv, status_code := status_code, latency_ms := some elapsed_ms,
        error := error }) ∧
    (∀ excName excMsg,
      run_check endpoint (TransportResult.failure excName excMsg) elapsed_ms =
        { ok := false, status_code := none, latency_ms := some elapsed_ms,
          error := some (excName ++ ": " ++ excMsg) }) := by
  refine ⟨?_, ?_, ?_⟩
  · cases t <;> rfl
  · cases t <;> exact ⟨_, _, _, rfl⟩
  · intro excName excMsg
    rfl

/-! ## Claim C8: check_now dispatch -/

/-- Claim C8: check_now returns whether the name matches a configured
endpoint; an unknown name yields false with no task dispatched (hence no
Store write can follow), and a known name yields true with exactly one
probe-and-store task dispatched, asynchronously (the function returns the
dispatched task rather than its effect, and leaves the Store untouched
itself). -/
theorem C8_check_now (endpoints : List EndpointConfig) (name : String) :
    (check_now endpoints name).1 = endpoints.any (fun e => e.name == name) ∧
    ((∀ e ∈ endpoints, e.name ≠ name) → check_now endpoints name = (false, [])) ∧
    (∀ ep, endpoints.find? (fun e => e.name == name) = some ep →
      check_now endpoints name = (true, [ep])) := by
  refine ⟨?_, ?_, ?_⟩
  · cases hf : endpoints.find? (fun e => e.name == name) with
    | none =>
      have hnone := List.find?_eq_none.mp hf
      simp only [check_now, hf]
      symm
      rw [List.any_eq_false]
      intro e he
      exact hnone e he
    | some ep =>
      have hsome := List.find?_some hf
      simp only [check_now, hf]
      symm
      rw [List.any_eq_true]
      exact ⟨ep, List.mem_of_find?_eq_some hf, hsome⟩
  · intro hall
    have hnone : endpoints.find? (fun e => e.name == name) = none := by
      rw [List.find?_eq_none]
      intro e he
      simpa using hall e he
    simp [check_now, hnone]
  · intro ep hep
    simp [check_now, hep]

/-! ## Claim C4: get_last_check -/

/-- Claim C4: inserting a check for an endpoint whose timestamp is no
older than every stored check of that endpoint (as successive wall-clock
timestamps are) makes get_last_check return exactly that check, even when
timestamps tie, because the fresh AUTOINCREMENT id breaks the tie in
insertion order; and an endpoint with no rows yields None. -/
theorem C4_last_check (db : DB) (endpoint_id : Nat) (checked_at : Int)
    (ok : Bool) (status_code latency_ms : Option Int) (error : Option String)
    (hwf : db.ChecksWF)
    (hmono : ∀ r ∈ db.checks, r.endpoint_id = endpoint_id →
      r.checked_at ≤ checked_at) :
    get_last_check
        (insert_check db endpoint_id checked_at ok status_code latency_ms error)
        endpoint_id =
      some { checked_at := checked_at, ok := ok, status_code := status_code,
             latency_ms := latency_ms, error := error } ∧
    (filterChecks db endpoint_id = [] → get_last_check db endpoint_id = none) ∧
    get_last_check emptyDB endpoint_id = none := by
  refine ⟨?_, ?_, ?_⟩
  · have hfilter :
        filterChecks
          (insert_check db endpoint_id checked_at ok status_code latency_ms error)
          endpoint_id =
        filterChecks db endpoint_id ++
          [{ id := db.next_check_id, endpoint_id := endpoint_id,
             checked_at := checked_at, ok := ok, status_code := status_code,
             latency_ms := latency_ms, error := error }] := by
      simp [filterChecks, insert_check, List.filter_append]
    have hdom : ∀ r ∈ filterChecks db endpoint_id,
        rowBefore
          { id := db.next_check_id, endpoint_id := endpoint_id,
            checked_at := checked_at, ok := ok, status_code := status_code,
            latency_ms := latency_ms, error := error } r := by
      intro r hr
      have hr2 := List.mem_filter.mp hr
      have hr3 : r.endpoint_id = endpoint_id := by simpa using hr2.2
      have hle := hmono r hr2.1 hr3
      rcases lt_or_eq_of_le hle with hlt | heq
      · exact Or.inl hlt
      · exact Or.inr ⟨heq.symm, le_of_lt (hwf r hr2.1)⟩
    have hstrict : ∀ r ∈ filterChecks db endpoint_id,
        r.id < db.next_check_id := by
      intro r hr
      exact hwf r (List.mem_filter.mp hr).1
    rw [get_last_check, orderedChecks, hfilter,
      sorted_append_head _ _ hdom hstrict]
    rfl
  · intro he
    rw [get_last_check, orderedChecks, he]
    rfl
  · rfl

/-- Witness for C4: two inserts for endpoint 1 sharing checked_at = 100;
the second insert wins the tie by insertion order. -/
theorem C4_last_check_witness :
    get_last_check
        (insert_check (insert_check emptyDB 1 100 true (some 200) (some 5) none)
          1 100 false (some 503) (some 9) (some "boom"))
        1 =
      some { checked_at := 100, ok := false, status_code := some 503,
             latency_ms := some 9, error := some "boom" } ∧
    (filterChecks (insert_check emptyDB 1 100 true (some 200) (some 5) none) 1 = [] →
      get_last_check (insert_check emptyDB 1 100 true (some 200) (some 5) none) 1 =
        none) ∧
    get_last_check emptyDB 1 = none :=
  C4_last_check (insert_check emptyDB 1 100 true (some 200) (some 5) none)
    1 100 false (some 503) (some 9) (some "boom")
    (by unfold DB.ChecksWF; decide) (by decide)

/-! ## Claim C5: get_history -/

/-- Claim C5: for a positive limit, get_history returns the most recent
min(limit, count) rows, newest first (checked_at nonincreasing, ties
resolved by the underlying descending id order), its first row is exactly
the last check, and a limit at least the row count returns every row of
the endpoint. -/
theorem C5_history (db : DB) (endpoint_id limit : Nat) (hpos : 0 < limit) :
    (get_history db endpoint_id limit).length =
      min limit (filterChecks db endpoint_id).length ∧
    List.Sorted (fun a b => b.checked_at ≤ a.checked_at)
      (get_history db endpoint_id limit) ∧
    (get_history db endpoint_id limit).head? = get_last_check db endpoint_id ∧
    ((filterChecks db endpoint_id).length ≤ limit →
      (get_history db endpoint_id limit).Perm
        ((filterChecks db endpoint_id).map DBCheckRow.toCheckRow)) :=
  ⟨get_history_length db endpoint_id limit,
   get_history_sorted db endpoint_id limit,
   get_history_head db endpoint_id limit hpos,
   get_history_full db endpoint_id limit⟩

/-- Witness for C5: an endpoint holding 3 rows queried with limit 2000
(all three come back, newest first, the head being the last check). -/
theorem C5_history_witness :
    (get_history
        (insert_check
          (insert_check (insert_check emptyDB 1 100 true (some 200) (some 5) none)
            1 105 false none (some 1000) (some "timeout"))
          1 105 true (some 204) (some 4) none)
        1 2000).length =
      min 2000
        (filterChecks
          (insert_check
            (insert_check (insert_check emptyDB 1 100 true (some 200) (some 5) none)
              1 105 false none (some 1000) (some "timeout"))
            1 105 true (some 204) (some 4) none)
          1).length ∧
    List.Sorted (fun a b => b.checked_at ≤ a.checked_at)
      (get_history
        (insert_check
          (insert_check (insert_check emptyDB 1 100 true (some 200) (some 5) none)
            1 105 false none (some 1000) (some "timeout"))
          1 105 true (some 204) (some 4) none)
        1 2000) ∧
    (get_history
        (insert_check
          (insert_check (insert_check emptyDB 1 100 true (some 200) (some 5) none)
            1 105 false none (some 1000) (some "timeout"))
          1 105 true (some 204) (some 4) none)
        1 2000).head? =
      get_last_check
        (insert_check
          (insert_check (insert_check emptyDB 1 100 true (some 200) (some 5) none)
            1 105 false none (some 1000) (some "timeout"))
          1 105 true (some 204) (some 4) none)
        1 ∧
    ((filterChecks
        (insert_check
          (insert_check (insert_check emptyDB 1 100 true (some 200) (some 5) none)
            1 105 false none (some 1000) (some "timeout"))
          1 105 true (some 204) (some 4) none)
        1).length ≤ 2000 →
      (get_history
        (insert_check
          (insert_check (insert_check emptyDB 1 100 true (some 200) (some 5) none)
            1 105 false none (some 1000) (some "timeout"))
          1 105 true (some 204) (some 4) none)
        1 2000).Perm
        ((filterChecks
          (insert_check
            (insert_check (insert_check emptyDB 1 100 true (some 200) (some 5) none)
              1 105 false none (some 1000) (some "timeout"))
            1 105 true (some 204) (some 4) none)
          1).map DBCheckRow.toCheckRow)) :=
  C5_history
    (insert_check
      (insert_check (insert_check emptyDB 1 100 true (some 200) (some 5) none)
        1 105 false none (some 1000) (some "timeout"))
      1 105 true (some 204) (some 4) none)
    1 2000 (by decide)

/-! ## Claim C6: get_uptime -/

/-- Claim C6: up never exceeds total; with since absent the total counts
exactly the insert_check calls made for the endpoint (zero on a fresh
database, incremented by an insert for this endpoint, untouched by an
insert for any other endpoint); with since present only rows with
checked_at at least since are counted (an older insert changes nothing, a
new-enough insert raises the total); and a zero total renders the
percentage as None instead of dividing. -/
theorem C6_uptime (db : DB) (endpoint_id : Nat) (since_ts : Option Int)
    (checked_at s : Int) (ok : Bool) (status_code latency_ms : Option Int)
    (error : Option String) (hlt : checked_at < s) :
    (get_uptime db endpoint_id since_ts).1 ≤
      (get_uptime db endpoint_id since_ts).2 ∧
    get_uptime emptyDB endpoint_id none = (0, 0) ∧
    (get_uptime
        (insert_check db endpoint_id checked_at ok status_code latency_ms error)
        endpoint_id none).2 =
      (get_uptime db endpoint_id none).2 + 1 ∧
    (∀ other_id, other_id ≠ endpoint_id →
      get_uptime
          (insert_check db other_id checked_at ok status_code latency_ms error)
          endpoint_id none =
        get_uptime db endpoint_id none) ∧
    get_uptime
        (insert_check db endpoint_id checked_at ok status_code latency_ms error)
        endpoint_id (some s) =
      get_uptime db endpoint_id (some s) ∧
    (∀ s2 : Int, s2 ≤ checked_at →
      (get_uptime
          (insert_check db endpoint_id checked_at ok status_code latency_ms error)
          endpoint_id (some s2)).2 =
        (get_uptime db endpoint_id (some s2)).2 + 1) ∧
    (∀ up total : Nat, (pct up total = none ↔ total = 0)) := by
  refine ⟨?_, ?_, ?_, ?_, ?_, ?_, ?_⟩
  · exact List.countP_le_length _
  · rfl
  · simp [get_uptime, filterChecks, insert_check, List.filter_append]
  · intro other_id hne
    have hbeq : (other_id == endpoint_id) = false := by
      simp [hne]
    simp [get_uptime, filterChecks, insert_check, List.filter_append, hbeq]
  · have hdec : decide (s ≤ checked_at) = false :=
      decide_eq_false (not_le.mpr hlt)
    simp [get_uptime, filterChecks, insert_check, List.filter_append, hdec]
  · intro s2 hs2
    have hdec : decide (s2 ≤ checked_at) = true := decide_eq_true hs2
    simp [get_uptime, filterChecks, insert_check, List.filter_append, hdec]
  · intro up total
    by_cases h : total = 0 <;> simp [pct, h]

/-- Witness for C6 on a one-row database for endpoint 1, with since
threshold 101 and a fresh insert stamped 100. -/
theorem C6_uptime_witness :
    (get_uptime (insert_check emptyDB 1 100 true (some 200) (some 5) none)
        1 none).1 ≤
      (get_uptime (insert_check emptyDB 1 100 true (some 200) (some 5) none)
        1 none).2 ∧
    get_uptime emptyDB 1 none = (0, 0) ∧
    (get_uptime
        (insert_check (insert_check emptyDB 1 100 true (some 200) (some 5) none)
          1 100 false (some 500) (some 8) (some "err"))
        1 none).2 =
      (get_uptime (insert_check emptyDB 1 100 true (some 200) (some 5) none)
        1 none).2 + 1 ∧
    (∀ other_id, other_id ≠ 1 →
      get_uptime
          (insert_check (insert_check emptyDB 1 100 true (some 200) (some 5) none)
            other_id 100 false (some 500) (some 8) (some "err"))
          1 none =
        get_uptime (insert_check emptyDB 1 100 true (some 200) (some 5) none)
          1 none) ∧
    get_uptime
        (insert_check (insert_check emptyDB 1 100 true (some 200) (some 5) none)
          1 100 false (some 500) (some 8) (some "err"))
        1 (some 101) =
      get_uptime (insert_check emptyDB 1 100 true (some 200) (some 5) none)
        1 (some 101) ∧
    (∀ s2 : Int, s2 ≤ 100 →
      (get_uptime
          (insert_check (insert_check emptyDB 1 100 true (some 200) (some 5) none)
            1 100 false (some 500) (some 8) (some "err"))
          1 (some s2)).2 =
        (get_uptime (insert_check emptyDB 1 100 true (some 200) (some 5) none)
          1 (some s2)).2 + 1) ∧
    (∀ up total : Nat, (pct up total = none ↔ total = 0)) :=
  C6_uptime (insert_check emptyDB 1 100 true (some 200) (some 5) none)
    1 none 100 101 false (some 500) (some 8) (some "err") (by decide)

/-! ## Claim C7: upsert_endpoint -/

/-- In a list of endpoint rows with pairwise distinct names, find? by a
name returns exactly the member carrying that name. -/
theorem find_name_unique (l : List EndpointRow) (name : String)
    (r : EndpointRow)
    (huniq : l.Pairwise (fun a b => a.name ≠ b.name))
    (hmem : r ∈ l) (hname : r.name = name) :
    l.find? (fun q => q.name == name) = some r := by
  induction l with
  | nil => cases hmem
  | cons a t ih =>
    have hpair := List.pairwise_cons.mp huniq
    rcases List.mem_cons.mp hmem with rfl | hmem2
    · exact List.find?_cons_of_pos _ (by simp [hname])
    · have hne : a.name ≠ name := by
        rw [← hname]
        exact hpair.1 r hmem2
      rw [List.find?_cons_of_neg _ (by simp [hne])]
      exact ih hpair.2 hmem2

/-- Two members of a pairwise-distinct-name list sharing a name
coincide. -/
theorem mem_name_unique (l : List EndpointRow)
    (huniq : l.Pairwise (fun a b => a.name ≠ b.name))
    (p r : EndpointRow) (hp : p ∈ l) (hr : r ∈ l) (h : p.name = r.name) :
    p = r := by
  induction l with
  | nil => cases hp
  | cons a t ih =>
    have hpair := List.pairwise_cons.mp huniq
    rcases List.mem_cons.mp hp with rfl | hp2 <;>
      rcases List.mem_cons.mp hr with rfl | hr2
    · rfl
    · exact absurd h (hpair.1 r hr2)
    · exact absurd h.symm (hpair.1 p hp2)
    · exact ih hpair.2 hp2 hr2

/-- The DO UPDATE SET clause never changes the name column. -/
theorem updateEndpointRow_name (name url method : String)
    (interval_seconds timeout_seconds : Int)
    (headers_json expected_statuses_json : Option String)
    (q : EndpointRow) :
    (updateEndpointRow name url method interval_seconds timeout_seconds
      headers_json expected_statuses_json q).name = q.name := by
  by_cases h : (q.name == name) = true <;>
    simp [updateEndpointRow, h]

/-- Claim C7: upserting a config whose name already exists in a store with
unique names returns the existing row's id, rewrites that row's url,
method, interval, timeout, headers and accepted-status columns while
preserving its id and created_at, keeps the name column of every row (so
there is still exactly one row per unique name), and leaves the checks
table untouched. -/
theorem C7_upsert_preserves_identity (db : DB) (r : EndpointRow)
    (name url method : String) (interval_seconds timeout_seconds : Int)
    (headers_json expected_statuses_json : Option String) (now : Int)
    (huniq : db.endpoints.Pairwise (fun a b => a.name ≠ b.name))
    (hmem : r ∈ db.endpoints) (hname : r.name = name) :
    (upsert_endpoint db name url method interval_seconds timeout_seconds
        headers_json expected_statuses_json now).2 = r.id ∧
    (upsert_endpoint db name url method interval_seconds timeout_seconds
        headers_json expected_statuses_json now).1.endpoints.map
        (fun q => q.name) =
      db.endpoints.map (fun q => q.name) ∧
    (upsert_endpoint db name url method interval_seconds timeout_seconds
        headers_json expected_statuses_json now).1.endpoints.Pairwise
        (fun a b => a.name ≠ b.name) ∧
    (∀ q ∈ (upsert_endpoint db name url method interval_seconds
        timeout_seconds headers_json expected_statuses_json now).1.endpoints,
      q.name = name →
        q.id = r.id ∧ q.created_at = r.created_at ∧ q.url = url ∧
        q.method = method ∧ q.interval_seconds = interval_seconds ∧
        q.timeout_seconds = timeout_seconds ∧ q.headers_json = headers_json ∧
        q.expected_statuses_json = expected_statuses_json) ∧
    (upsert_endpoint db name url method interval_seconds timeout_seconds
        headers_json expected_statuses_json now).1.checks = db.checks := by
  have hfind : db.endpoints.find? (fun q => q.name == name) = some r :=
    find_name_unique db.endpoints name r huniq hmem hname
  refine ⟨?_, ?_, ?_, ?_, ?_⟩
  · simp [upsert_endpoint, hfind]
  · simp only [upsert_endpoint, hfind, List.map_map]
    refine List.map_congr_left ?_
    intro q hq
    exact updateEndpointRow_name name url method interval_seconds
      timeout_seconds headers_json expected_statuses_json q
  · simp only [upsert_endpoint, hfind]
    refine List.Pairwise.map _ ?_ huniq
    intro a b hab
    rw [updateEndpointRow_name, updateEndpointRow_name]
    exact hab
  · simp only [upsert_endpoint, hfind]
    intro q hq hqname
    obtain ⟨p, hp, hpq⟩ := List.mem_map.mp hq
    by_cases hcase : (p.name == name) = true
    · have hpname : p.name = name := by simpa using hcase
      have hpr : p = r :=
        mem_name_unique db.endpoints huniq p r hp hmem
          (by rw [hpname, hname])
      subst hpr
      rw [← hpq]
      simp [updateEndpointRow, hcase]
    · exfalso
      have : q.name = p.name := by
        rw [← hpq]
        exact updateEndpointRow_name name url method interval_seconds
          timeout_seconds headers_json expected_statuses_json p
      rw [this] at hqname
      exact hcase (by simp [hqname])
  · simp [upsert_endpoint, hfind]

/-- Witness for C7: the one-endpoint fixture store upserted under the same
name with a changed url; the id 1 and created_at 50 survive. -/
theorem C7_upsert_preserves_identity_witness :
    (upsert_endpoint sampleDB
        "svc" "http://new.example" "HEAD" 60 5 none (some "[200]") 90).2 =
      sampleRow.id ∧
    (upsert_endpoint sampleDB
        "svc" "http://new.example" "HEAD" 60 5 none (some "[200]") 90).1.endpoints.map
        (fun q => q.name) =
      sampleDB.endpoints.map (fun q => q.name) ∧
    (upsert_endpoint sampleDB
        "svc" "http://new.example" "HEAD" 60 5 none (some "[200]") 90).1.endpoints.Pairwise
        (fun a b => a.name ≠ b.name) ∧
    (∀ q ∈ (upsert_endpoint sampleDB
        "svc" "http://new.example" "HEAD" 60 5 none (some "[200]") 90).1.endpoints,
      q.name = "svc" →
        q.id = sampleRow.id ∧ q.created_at = sampleRow.created_at ∧
        q.url = "http://new.example" ∧ q.method = "HEAD" ∧
        q.interval_seconds = 60 ∧ q.timeout_seconds = 5 ∧
        q.headers_json = none ∧ q.expected_statuses_json = some "[200]") ∧
    (upsert_endpoint sampleDB
        "svc" "http://new.example" "HEAD" 60 5 none (some "[200]") 90).1.checks =
      sampleDB.checks :=
  C7_upsert_preserves_identity sampleDB sampleRow
    "svc" "http://new.example" "HEAD" 60 5 none (some "[200]") 90
    (by simp [sampleDB]) (by simp [sampleDB]) (by rfl)

/-! ## Claim C9: GET api history -/

/-- Claim C9: the history handler answers 400 when the name parameter is
absent or blank, 400 when a provided non-blank limit does not parse as an
integer, 404 when the stripped name is not a configured endpoint, and
otherwise 200 with the endpoint's history newest first, where the limit
defaults to 200 when absent and a parsed value is clamped into [1, 2000]
by max(1, min(2000, value)). -/
theorem C9_history_endpoint (db : DB) (ids : List (String × Nat))
    (n lr : String) (v : Int) (eid : Nat)
    (hname : pyStrip n ≠ "") (hlr : pyStrip lr ≠ "")
    (hparse : pyInt lr = some v) (hid : lookupId ids (pyStrip n) = some eid) :
    (∀ lrOpt, handle_history db ids none lrOpt =
      HistoryResponse.badRequest "Missing \x27name\x27 query param") ∧
    (∀ m lrOpt, pyStrip m = "" → handle_history db ids (some m) lrOpt =
      HistoryResponse.badRequest "Missing \x27name\x27 query param") ∧
    (∀ m, pyStrip m ≠ "" → lookupId ids (pyStrip m) = none →
      handle_history db ids (some m) none =
        HistoryResponse.notFound "Unknown endpoint") ∧
    (∀ bad, pyStrip bad ≠ "" → pyInt bad = none →
      handle_history db ids (some n) (some bad) =
        HistoryResponse.badRequest "Invalid \x27limit\x27") ∧
    handle_history db ids (some n) none =
      HistoryResponse.okResponse (pyStrip n) (get_history db eid 200) ∧
    handle_history db ids (some n) (some lr) =
      HistoryResponse.okResponse (pyStrip n)
        (get_history db eid (Int.toNat (max 1 (min 2000 v)))) ∧
    1 ≤ Int.toNat (max 1 (min 2000 v)) ∧
    Int.toNat (max 1 (min 2000 v)) ≤ 2000 ∧
    List.Sorted (fun a b => b.checked_at ≤ a.checked_at)
      (get_history db eid (Int.toNat (max 1 (min 2000 v)))) := by
  refine ⟨?_, ?_, ?_, ?_, ?_, ?_, ?_, ?_, ?_⟩
  · intro lrOpt
    rfl
  · intro m lrOpt hm
    simp [handle_history, hm]
  · intro m hm hnone
    simp [handle_history, hm, historyFor, hnone]
  · intro bad hbad hbadparse
    simp [handle_history, hname, hbad, hbadparse]
  · simp [handle_history, hname, historyFor, hid]
  · simp [handle_history, hname, hlr, hparse, historyFor, hid]
  · omega
  · omega
  · exact get_history_sorted db eid _

/-- Witness for C9: one configured endpoint svc with id 1, the name
supplied with surrounding blanks and a limit of 5000 (clamped to 2000). -/
theorem C9_history_endpoint_witness :
    (∀ lrOpt, handle_history sampleDB [("svc", 1)] none lrOpt =
      HistoryResponse.badRequest "Missing \x27name\x27 query param") ∧
    (∀ m lrOpt, pyStrip m = "" →
      handle_history sampleDB [("svc", 1)] (some m) lrOpt =
        HistoryResponse.badRequest "Missing \x27name\x27 query param") ∧
    (∀ m, pyStrip m ≠ "" → lookupId [("svc", 1)] (pyStrip m) = none →
      handle_history sampleDB [("svc", 1)] (some m) none =
        HistoryResponse.notFound "Unknown endpoint") ∧
    (∀ bad, pyStrip bad ≠ "" → pyInt bad = none →
      handle_history sampleDB [("svc", 1)] (some " svc ") (some bad) =
        HistoryResponse.badRequest "Invalid \x27limit\x27") ∧
    handle_history sampleDB [("svc", 1)] (some " svc ") none =
      HistoryResponse.okResponse (pyStrip " svc ")
        (get_history sampleDB 1 200) ∧
    handle_history sampleDB [("svc", 1)] (some " svc ") (some "5000") =
      HistoryResponse.okResponse (pyStrip " svc ")
        (get_history sampleDB 1 (Int.toNat (max 1 (min 2000 5000)))) ∧
    1 ≤ Int.toNat (max 1 (min 2000 5000)) ∧
    Int.toNat (max 1 (min 2000 5000)) ≤ 2000 ∧
    List.Sorted (fun a b => b.checked_at ≤ a.checked_at)
      (get_history sampleDB 1 (Int.toNat (max 1 (min 2000 5000)))) :=
  C9_history_endpoint sampleDB [("svc", 1)] " svc " "5000" 5000 1
    (by decide) (by decide) (by decide) (by decide)

end StatusMonitor
